import Mathlib

/-!
The tweets-metrics pipeline: receive, decode, write, acknowledge.

A shallow embedding of `main.go`.  The program is one `main` function: six
environment lookups, creation of the Pub/Sub Lite subscriber and of the
InfluxDB client, and a receive loop whose handler counts the delivery, parses
the message identifier, decodes the body, builds a point, writes it and
acknowledges the message.

External libraries (`pscompat`, `encoding/json`, `influxdb`) are not part of
the repository; what they return is a parameter of the model (`External`,
`Source`).  Every call the program makes is recorded as an `Effect`, in program
order, so that statements about "how many writes" or "write before
acknowledge" are statements about the trace.
-/

namespace TweetsMetrics

/-! ## Data model -/

/-- Two's-complement wrap of an integer into the range of Go's `int32`. -/
def wrapInt32 (x : Int) : Int := (x + 2147483648) % 4294967296 - 2147483648

/-- A point in time (`time.Time`), as nanoseconds since the Unix epoch. -/
structure Time where
  unixNano : Int
deriving DecidableEq, Repr

/-- Modelled from the spec: the `public_metrics` sub-record of an author
record of `twitter-go` (the type declaration is not in the repository); the
handler reads `FollowersCount` only. -/
structure PublicMetrics where
  FollowersCount : Int
deriving DecidableEq, Repr

/-- Modelled from the spec: an author record of `twitter-go`, reduced to the
fields the handler reads (`Username`, `PublicMetrics`). -/
structure User where
  Username : String
  PublicMetrics : PublicMetrics
deriving DecidableEq, Repr

/-- Modelled from the spec: the inclusion list of `twitter-go`, with the
authors in payload order. -/
structure Includes where
  Users : List User
deriving DecidableEq, Repr

/-- Modelled from the spec: the primary post record of `twitter-go`, reduced
to the fields the handler reads (`ID`, `CreatedAt`). -/
structure Tweet where
  ID : String
  CreatedAt : Time
deriving DecidableEq, Repr

/-- Modelled from the spec: `twitter.SearchStreamResponse`, the decoded
search-stream response (`data` and `includes`). -/
structure SearchStreamResponse where
  Tweet : Tweet
  Includes : Includes
deriving DecidableEq, Repr

/-- The arguments of `influxdb.NewPoint`: measurement, tags, fields and
timestamp, the two maps as the key/value pairs of the map literals. -/
structure Point where
  measurement : String
  tags : List (String × String)
  fields : List (String × Int)
  ts : Time
deriving DecidableEq, Repr

/-- The result of `pscompat.ParseMessageMetadata`. -/
structure MessageMetadata where
  Partition : Int
  Offset : Int
deriving DecidableEq, Repr

/-- The fields of `pubsub.Message` the handler reads; `Ack` is the effect
`Effect.ack` carrying the identifier of the acknowledged message. -/
structure Message where
  ID : String
  Data : String
deriving DecidableEq, Repr

/-- An argument of a `Printf` / `Fatalf` call. -/
inductive Arg where
  | str (s : String)
  | int (i : Int)
deriving DecidableEq, Repr

/-- The calls `main` makes to the outside world, one constructor per call
site kind. -/
inductive Effect where
  /-- Call `os.LookupEnv(key)`. -/
  | lookupEnv (key : String)
  /-- Call `pscompat.NewSubscriberClientWithSettings(ctx, path, settings)`. -/
  | newSubscriberClient (path : String) (maxOutstandingBytes maxOutstandingMessages : Nat)
  /-- Call `influxdb.NewClient(url, token)`. -/
  | newClient (url token : String)
  /-- Call `client.WriteAPIBlocking(org, bucket)`. -/
  | writeAPIBlocking (org bucket : String)
  /-- Call `subscriber.Receive(cctx, handler)`. -/
  | receive
  /-- Call `atomic.AddInt32(&receiveCount, 1)`. -/
  | addInt32
  /-- Call `pscompat.ParseMessageMetadata(msg.ID)`. -/
  | parseMessageMetadata (id : String)
  /-- Call `fmt.Printf(format, args...)`. -/
  | printf (format : String) (args : List Arg)
  /-- Call `json.Unmarshal(msg.Data, &tweetStream)`. -/
  | unmarshal (data : String)
  /-- Call `writeAPI.WritePoint(ctx, p)`. -/
  | writePoint (p : Point)
  /-- Call `msg.Ack()` on the message with this identifier. -/
  | ack (id : String)
  /-- Call `log.Fatalf(format, args...)`, which logs and exits with status 1. -/
  | fatalf (format : String) (args : List Arg)
  /-- The deferred `cancel()`. -/
  | cancel
  /-- The deferred `client.Close()`. -/
  | clientClose
deriving DecidableEq, Repr

/-- How a piece of the program ends. -/
inductive Outcome where
  /-- The function returned to its caller. -/
  | returned
  /-- The process was ended by `os.Exit(code)` (through `log.Fatalf`). -/
  | exited (code : Nat)
  /-- The process was ended by a Go run-time error. -/
  | crashed (reason : String)
deriving DecidableEq, Repr

/-- The exit status of the process for an outcome of `main`: 0 when `main`
returns, the code of `os.Exit`, 2 for an unrecovered run-time error. -/
def Outcome.exitStatus : Outcome → Nat
  | .returned => 0
  | .exited code => code
  | .crashed _ => 2

/-- What the external libraries answer.  `Unmarshal` yields `none` when it
leaves the pointer `tweetStream` nil without an error; `WritePoint` threads
the state of the sink and yields `some err` on failure. -/
structure External (σ : Type) where
  NewSubscriberClientWithSettings : String → Option String
  ParseMessageMetadata : String → Except String MessageMetadata
  Unmarshal : String → Except String (Option SearchStreamResponse)
  WritePoint : σ → Point → Option String × σ

/-- What the Message Source does during `subscriber.Receive`: the messages it
delivers, in order, and the error `Receive` returns once they are handled
(`none` for a return without error). -/
structure Source where
  deliveries : List Message
  receiveErr : Option String

/-- The mutable state: the variable `receiveCount` (an `int32`) and the state
of the sink. -/
structure State (σ : Type) where
  receiveCount : Int
  sink : σ

/-- State, effect trace and outcome of a run. -/
structure Result (σ : Type) where
  state : State σ
  trace : List Effect
  outcome : Outcome

/-! ## The program -/

/-- The point built at `main.go` lines 93-102, `u0` being
`tweetStream.Includes.Users[0]`. -/
def NewPoint (tweetStream : SearchStreamResponse) (u0 : User) : Point :=
  { measurement := "tweets"
    tags := [("id", tweetStream.Tweet.ID), ("author", u0.Username)]
    fields := [("followers_count", u0.PublicMetrics.FollowersCount)]
    ts := tweetStream.Tweet.CreatedAt }

/-- The receive handler, `main.go` lines 75-108, for one message. -/
def handler {σ : Type} (ext : External σ) (st : State σ) (msg : Message) : Result σ :=
  let st1 : State σ := { st with receiveCount := wrapInt32 (st.receiveCount + 1) }
  let t1 := [Effect.addInt32, Effect.parseMessageMetadata msg.ID]
  match ext.ParseMessageMetadata msg.ID with
  | .error err =>
    ⟨st1, t1 ++ [Effect.fatalf "Failed to parse %q: %v" [.str msg.ID, .str err]], .exited 1⟩
  | .ok metadata =>
    let t2 := t1 ++
      [Effect.printf "Received (partition=%d, offset=%d): %s\n"
          [.int metadata.Partition, .int metadata.Offset, .str msg.Data],
       Effect.unmarshal msg.Data]
    match ext.Unmarshal msg.Data with
    | .error err =>
      ⟨st1, t2 ++ [Effect.fatalf "Failed to unmarshal %q: %v" [.str msg.ID, .str err]],
        .exited 1⟩
    | .ok none =>
      ⟨st1, t2, .crashed "invalid memory address or nil pointer dereference"⟩
    | .ok (some tweetStream) =>
      match tweetStream.Includes.Users with
      | [] => ⟨st1, t2, .crashed "index out of range [0] with length 0"⟩
      | u0 :: _ =>
        let p := NewPoint tweetStream u0
        let w := ext.WritePoint st.sink p
        let st2 : State σ := { st1 with sink := w.2 }
        match w.1 with
        | some err =>
          ⟨st2, t2 ++ [Effect.writePoint p,
              Effect.fatalf "Failed to publish metric %q: %v" [.str msg.ID, .str err]],
            .exited 1⟩
        | none =>
          ⟨st2, t2 ++ [Effect.writePoint p, Effect.ack msg.ID], .returned⟩

/-- Trace of the handler up to and including the call of the decoder. -/
def decodePrefix (msg : Message) (md : MessageMetadata) : List Effect :=
  [Effect.addInt32, Effect.parseMessageMetadata msg.ID,
   Effect.printf "Received (partition=%d, offset=%d): %s\n"
     [.int md.Partition, .int md.Offset, .str msg.Data],
   Effect.unmarshal msg.Data]

/-- The deliveries of `subscriber.Receive`, one handler invocation after the
other; a handler that ends the process ends the loop. -/
def Receive {σ : Type} (ext : External σ) (st : State σ) : List Message → Result σ
  | [] => ⟨st, [], .returned⟩
  | msg :: rest =>
    let r := handler ext st msg
    match r.outcome with
    | .returned =>
      let r2 := Receive ext r.state rest
      ⟨r2.state, r.trace ++ r2.trace, r2.outcome⟩
    | o => ⟨r.state, r.trace, o⟩

/-- The number of handler invocations that begin during `Receive`: every
delivery up to and including the first one whose handler ends the process. -/
def invocations {σ : Type} (ext : External σ) (st : State σ) : List Message → Nat
  | [] => 0
  | msg :: rest =>
    match (handler ext st msg).outcome with
    | .returned => invocations ext (handler ext st msg).state rest + 1
    | _ => 1

/-- The rest of `main` once the six settings are read, `main.go` lines
49-113. -/
def mainBody {σ : Type} (projectID zone subscriptionID influxToken influxOrg influxBucket : String)
    (ext : External σ) (src : Source) (sink0 : σ) : Result σ :=
  let st0 : State σ := ⟨0, sink0⟩
  let path := "projects/" ++ projectID ++ "/locations/" ++ zone ++ "/subscriptions/" ++
    subscriptionID
  let t0 := [Effect.newSubscriberClient path (10 * 1024 * 1024) 1000]
  match ext.NewSubscriberClientWithSettings path with
  | some err =>
    ⟨st0, t0 ++ [Effect.fatalf "pscompat.NewSubscriberClientWithSettings error: %v" [.str err]],
      .exited 1⟩
  | none =>
    let t1 := t0 ++
      [Effect.newClient "https://us-central1-1.gcp.cloud2.influxdata.com" influxToken,
       Effect.writeAPIBlocking influxOrg influxBucket,
       Effect.receive]
    let r := Receive ext st0 src.deliveries
    match r.outcome with
    | .returned =>
      match src.receiveErr with
      | some err =>
        ⟨r.state, t1 ++ r.trace ++
            [Effect.fatalf "SubscriberClient.Receive error: %v" [.str err]], .exited 1⟩
      | none =>
        ⟨r.state, t1 ++ r.trace ++
            [Effect.printf "Received %d messages\n" [.int r.state.receiveCount],
             Effect.cancel, Effect.clientClose], .returned⟩
    | o => ⟨r.state, t1 ++ r.trace, o⟩

/-- The function `main`, over the environment `env` (`os.LookupEnv`). -/
def main {σ : Type} (env : String → Option String) (ext : External σ) (src : Source)
    (sink0 : σ) : Result σ :=
  let st0 : State σ := ⟨0, sink0⟩
  let l1 := [Effect.lookupEnv "GOOGLE_PROJECT_ID"]
  match env "GOOGLE_PROJECT_ID" with
  | none => ⟨st0, l1 ++ [Effect.fatalf "GOOGLE_PROJECT_ID env var is required" []], .exited 1⟩
  | some projectID =>
  let l2 := l1 ++ [Effect.lookupEnv "PUBSUB_ZONE"]
  match env "PUBSUB_ZONE" with
  | none => ⟨st0, l2 ++ [Effect.fatalf "PUBSUB_ZONE env var is required" []], .exited 1⟩
  | some zone =>
  let l3 := l2 ++ [Effect.lookupEnv "PUBSUB_SUBSCRIPTION_ID"]
  match env "PUBSUB_SUBSCRIPTION_ID" with
  | none =>
    ⟨st0, l3 ++ [Effect.fatalf "PUBSUB_SUBSCRIPTION_ID env var is required" []], .exited 1⟩
  | some subscriptionID =>
  let l4 := l3 ++ [Effect.lookupEnv "INFLUX_TOKEN"]
  match env "INFLUX_TOKEN" with
  | none => ⟨st0, l4 ++ [Effect.fatalf "INFLUX_TOKEN env var is required" []], .exited 1⟩
  | some influxToken =>
  let l5 := l4 ++ [Effect.lookupEnv "INFLUX_ORG"]
  match env "INFLUX_ORG" with
  | none => ⟨st0, l5 ++ [Effect.fatalf "INFLUX_ORG env var is required" []], .exited 1⟩
  | some influxOrg =>
  let l6 := l5 ++ [Effect.lookupEnv "INFLUX_BUCKET"]
  match env "INFLUX_BUCKET" with
  | none => ⟨st0, l6 ++ [Effect.fatalf "INFLUX_BUCKET env var is required" []], .exited 1⟩
  | some influxBucket =>
    let r := mainBody projectID zone subscriptionID influxToken influxOrg influxBucket
      ext src sink0
    ⟨r.state, l6 ++ r.trace, r.outcome⟩

/-- The six `os.LookupEnv` calls of `main`, in program order. -/
def envLookups : List Effect :=
  [Effect.lookupEnv "GOOGLE_PROJECT_ID", Effect.lookupEnv "PUBSUB_ZONE",
   Effect.lookupEnv "PUBSUB_SUBSCRIPTION_ID", Effect.lookupEnv "INFLUX_TOKEN",
   Effect.lookupEnv "INFLUX_ORG", Effect.lookupEnv "INFLUX_BUCKET"]

/-- The calls of `main` between the environment lookups and the first
delivery, when the subscriber client is created without error. -/
def startupCalls (projectID zone subscriptionID influxToken influxOrg influxBucket : String) :
    List Effect :=
  [Effect.newSubscriberClient
     ("projects/" ++ projectID ++ "/locations/" ++ zone ++ "/subscriptions/" ++ subscriptionID)
     (10 * 1024 * 1024) 1000,
   Effect.newClient "https://us-central1-1.gcp.cloud2.influxdata.com" influxToken,
   Effect.writeAPIBlocking influxOrg influxBucket,
   Effect.receive]

/-! ## Observations on traces -/

/-- The points written to the Metric Sink, in trace order. -/
def writes : List Effect → List Point
  | [] => []
  | Effect.writePoint p :: t => p :: writes t
  | _ :: t => writes t

/-- The identifiers of the acknowledged messages, in trace order. -/
def acks : List Effect → List String
  | [] => []
  | Effect.ack id :: t => id :: acks t
  | _ :: t => acks t

/-- The bodies handed to the decoder, in trace order. -/
def decodes : List Effect → List String
  | [] => []
  | Effect.unmarshal d :: t => d :: decodes t
  | _ :: t => decodes t

/-- The fatal log calls, in trace order. -/
def fatals : List Effect → List (String × List Arg)
  | [] => []
  | Effect.fatalf f a :: t => (f, a) :: fatals t
  | _ :: t => fatals t

/-- The counts printed by the final `Printf` of `main`. -/
def printedCounts : List Effect → List (List Arg)
  | [] => []
  | Effect.printf f a :: t =>
    if f = "Received %d messages\n" then a :: printedCounts t else printedCounts t
  | _ :: t => printedCounts t

/-- The number of `atomic.AddInt32` calls in a trace. -/
def increments : List Effect → Nat
  | [] => 0
  | Effect.addInt32 :: t => increments t + 1
  | _ :: t => increments t

/-- All six required settings are present in the environment. -/
def allPresent (env : String → Option String) : Bool :=
  (env "GOOGLE_PROJECT_ID").isSome && (env "PUBSUB_ZONE").isSome &&
  (env "PUBSUB_SUBSCRIPTION_ID").isSome && (env "INFLUX_TOKEN").isSome &&
  (env "INFLUX_ORG").isSome && (env "INFLUX_BUCKET").isSome

/-- The subscriber-creation calls in a trace. -/
def subscriberCreations : List Effect → List String
  | [] => []
  | Effect.newSubscriberClient path _ _ :: t => path :: subscriberCreations t
  | _ :: t => subscriberCreations t

/-- The sink-client creation calls in a trace. -/
def sinkCreations : List Effect → List String
  | [] => []
  | Effect.newClient url _ :: t => url :: sinkCreations t
  | _ :: t => sinkCreations t

/-! ## Sample inputs -/

/-- The instant 2024-01-01T00:00:00Z. -/
def newYear2024 : Time := ⟨1704067200000000000⟩

/-- The payload of the end-to-end scenario: post 123 by alice, 42 followers. -/
def alicePayload : String :=
  "\x7b\"data\":\x7b\"id\":\"123\",\"created_at\":\"2024-01-01T00:00:00Z\"\x7d," ++
  "\"includes\":\x7b\"users\":[\x7b\"username\":\"alice\"," ++
  "\"public_metrics\":\x7b\"followers_count\":42\x7d\x7d]\x7d\x7d"

/-- What `json.Unmarshal` yields for `alicePayload`. -/
def aliceEvent : SearchStreamResponse :=
  { Tweet := { ID := "123", CreatedAt := newYear2024 }
    Includes := { Users := [{ Username := "alice", PublicMetrics := { FollowersCount := 42 } }] } }

/-- The same post with an empty author list. -/
def emptyUsersPayload : String :=
  "\x7b\"data\":\x7b\"id\":\"123\",\"created_at\":\"2024-01-01T00:00:00Z\"\x7d," ++
  "\"includes\":\x7b\"users\":[]\x7d\x7d"

/-- What `json.Unmarshal` yields for `emptyUsersPayload`: no error, and an
empty `Users` slice. -/
def emptyUsersEvent : SearchStreamResponse :=
  { Tweet := { ID := "123", CreatedAt := newYear2024 }
    Includes := { Users := [] } }

/-- The answers of `json.Unmarshal` on the sample payloads; any other body is
rejected. -/
def sampleUnmarshal (data : String) : Except String (Option SearchStreamResponse) :=
  if data = alicePayload then .ok (some aliceEvent)
  else if data = emptyUsersPayload then .ok (some emptyUsersEvent)
  else .error "invalid character"

/-- The answers of `pscompat.ParseMessageMetadata` on the sample identifiers
(partition and offset joined by a colon); any other identifier is rejected. -/
def sampleParse (id : String) : Except String MessageMetadata :=
  if id = "0:0" then .ok ⟨0, 0⟩
  else if id = "3:17" then .ok ⟨3, 17⟩
  else .error "invalid encoded message metadata"

/-- Libraries over a sink that accepts every point; the sink state counts the
points written. -/
def sampleExt : External Nat :=
  { NewSubscriberClientWithSettings := fun _ => none
    ParseMessageMetadata := sampleParse
    Unmarshal := sampleUnmarshal
    WritePoint := fun n _ => (none, n + 1) }

/-- Libraries over a sink that rejects every point. -/
def failingSinkExt : External Nat :=
  { NewSubscriberClientWithSettings := fun _ => none
    ParseMessageMetadata := sampleParse
    Unmarshal := sampleUnmarshal
    WritePoint := fun n _ => (some "unavailable", n) }

/-- An environment with all six settings. -/
def fullEnv (key : String) : Option String :=
  if key = "GOOGLE_PROJECT_ID" then some "proj"
  else if key = "PUBSUB_ZONE" then some "us-central1-a"
  else if key = "PUBSUB_SUBSCRIPTION_ID" then some "tweets"
  else if key = "INFLUX_TOKEN" then some "token"
  else if key = "INFLUX_ORG" then some "org"
  else if key = "INFLUX_BUCKET" then some "bucket"
  else none

/-- The same environment without `INFLUX_BUCKET`. -/
def noBucketEnv (key : String) : Option String :=
  if key = "INFLUX_BUCKET" then none else fullEnv key

/-- The message of the end-to-end scenario. -/
def aliceMsg : Message := { ID := "3:17", Data := alicePayload }

/-- An initial state: counter zero, nothing written. -/
def state0 : State Nat := ⟨0, 0⟩

/-! ## Lemmas on the sample inputs -/

theorem sampleParse_alice : sampleExt.ParseMessageMetadata aliceMsg.ID = .ok ⟨3, 17⟩ := by
  simp [sampleExt, sampleParse, aliceMsg]

theorem sampleUnmarshal_alice : sampleExt.Unmarshal aliceMsg.Data = .ok (some aliceEvent) := by
  simp [sampleExt, sampleUnmarshal, aliceMsg]

theorem failingParse_alice : failingSinkExt.ParseMessageMetadata aliceMsg.ID = .ok ⟨3, 17⟩ := by
  simp [failingSinkExt, sampleParse, aliceMsg]

theorem failingUnmarshal_alice :
    failingSinkExt.Unmarshal aliceMsg.Data = .ok (some aliceEvent) := by
  simp [failingSinkExt, sampleUnmarshal, aliceMsg]

theorem sampleUnmarshal_emptyUsers :
    sampleExt.Unmarshal emptyUsersPayload = .ok (some emptyUsersEvent) := by
  have h : emptyUsersPayload ≠ alicePayload := by decide
  simp [sampleExt, sampleUnmarshal, h]

theorem sampleUnmarshal_garbage : sampleExt.Unmarshal "not json" = .error "invalid character" := by
  have h1 : "not json" ≠ alicePayload := by decide
  have h2 : "not json" ≠ emptyUsersPayload := by decide
  simp [sampleExt, sampleUnmarshal, h1, h2]

theorem sampleParse_garbage :
    sampleExt.ParseMessageMetadata "no-colon" = .error "invalid encoded message metadata" := by
  simp [sampleExt, sampleParse]

/-! ## The handler, one message: its result on each path -/

theorem handler_parse_error {σ : Type} (ext : External σ) (st : State σ) (msg : Message)
    (err : String) (hid : ext.ParseMessageMetadata msg.ID = .error err) :
    handler ext st msg =
      ⟨⟨wrapInt32 (st.receiveCount + 1), st.sink⟩,
       [Effect.addInt32, Effect.parseMessageMetadata msg.ID,
        Effect.fatalf "Failed to parse %q: %v" [.str msg.ID, .str err]],
       .exited 1⟩ := by
  simp [handler, hid]

theorem handler_decode_error {σ : Type} (ext : External σ) (st : State σ) (msg : Message)
    (md : MessageMetadata) (err : String)
    (hid : ext.ParseMessageMetadata msg.ID = .ok md)
    (hdec : ext.Unmarshal msg.Data = .error err) :
    handler ext st msg =
      ⟨⟨wrapInt32 (st.receiveCount + 1), st.sink⟩,
       decodePrefix msg md ++
         [Effect.fatalf "Failed to unmarshal %q: %v" [.str msg.ID, .str err]],
       .exited 1⟩ := by
  simp [handler, hid, hdec, decodePrefix]

theorem handler_nil_event {σ : Type} (ext : External σ) (st : State σ) (msg : Message)
    (md : MessageMetadata)
    (hid : ext.ParseMessageMetadata msg.ID = .ok md)
    (hdec : ext.Unmarshal msg.Data = .ok none) :
    handler ext st msg =
      ⟨⟨wrapInt32 (st.receiveCount + 1), st.sink⟩, decodePrefix msg md,
       .crashed "invalid memory address or nil pointer dereference"⟩ := by
  simp [handler, hid, hdec, decodePrefix]

theorem handler_no_author {σ : Type} (ext : External σ) (st : State σ) (msg : Message)
    (md : MessageMetadata) (ev : SearchStreamResponse)
    (hid : ext.ParseMessageMetadata msg.ID = .ok md)
    (hdec : ext.Unmarshal msg.Data = .ok (some ev))
    (husers : ev.Includes.Users = []) :
    handler ext st msg =
      ⟨⟨wrapInt32 (st.receiveCount + 1), st.sink⟩, decodePrefix msg md,
       .crashed "index out of range [0] with length 0"⟩ := by
  simp [handler, hid, hdec, husers, decodePrefix]

theorem handler_write_error {σ : Type} (ext : External σ) (st : State σ) (msg : Message)
    (md : MessageMetadata) (ev : SearchStreamResponse) (u0 : User) (rest : List User)
    (err : String)
    (hid : ext.ParseMessageMetadata msg.ID = .ok md)
    (hdec : ext.Unmarshal msg.Data = .ok (some ev))
    (husers : ev.Includes.Users = u0 :: rest)
    (hw : (ext.WritePoint st.sink (NewPoint ev u0)).1 = some err) :
    handler ext st msg =
      ⟨⟨wrapInt32 (st.receiveCount + 1), (ext.WritePoint st.sink (NewPoint ev u0)).2⟩,
       decodePrefix msg md ++
         [Effect.writePoint (NewPoint ev u0),
          Effect.fatalf "Failed to publish metric %q: %v" [.str msg.ID, .str err]],
       .exited 1⟩ := by
  simp only [handler, hid, hdec, husers, hw, decodePrefix]
  rfl

theorem handler_write_ok {σ : Type} (ext : External σ) (st : State σ) (msg : Message)
    (md : MessageMetadata) (ev : SearchStreamResponse) (u0 : User) (rest : List User)
    (hid : ext.ParseMessageMetadata msg.ID = .ok md)
    (hdec : ext.Unmarshal msg.Data = .ok (some ev))
    (husers : ev.Includes.Users = u0 :: rest)
    (hw : (ext.WritePoint st.sink (NewPoint ev u0)).1 = none) :
    handler ext st msg =
      ⟨⟨wrapInt32 (st.receiveCount + 1), (ext.WritePoint st.sink (NewPoint ev u0)).2⟩,
       decodePrefix msg md ++ [Effect.writePoint (NewPoint ev u0), Effect.ack msg.ID],
       .returned⟩ := by
  simp only [handler, hid, hdec, husers, hw, decodePrefix]
  rfl

/-! ## The handler, one message -/

/-- C1: when the identifier parses, the body decodes to an event with at least
one author and the sink accepts the point, the handler writes exactly one
point, acknowledges exactly once, that very message, returns, and the write
stands before the acknowledgment in the effect trace. -/
theorem C1_one_write_then_one_ack {σ : Type} (ext : External σ) (st : State σ) (msg : Message)
    (md : MessageMetadata) (ev : SearchStreamResponse) (u0 : User) (rest : List User)
    (hid : ext.ParseMessageMetadata msg.ID = .ok md)
    (hdec : ext.Unmarshal msg.Data = .ok (some ev))
    (husers : ev.Includes.Users = u0 :: rest)
    (hw : (ext.WritePoint st.sink (NewPoint ev u0)).1 = none) :
    (writes (handler ext st msg).trace).length = 1 ∧
    acks (handler ext st msg).trace = [msg.ID] ∧
    (handler ext st msg).outcome = .returned ∧
    ∃ i j : Nat, i < j ∧
      (handler ext st msg).trace[i]? = some (Effect.writePoint (NewPoint ev u0)) ∧
      (handler ext st msg).trace[j]? = some (Effect.ack msg.ID) := by
  rw [handler_write_ok ext st msg md ev u0 rest hid hdec husers hw]
  refine ⟨?_, ?_, ?_, 4, 5, by decide, ?_, ?_⟩ <;> simp [decodePrefix, writes, acks]

/-- C1 at the end-to-end scenario: the alice message over an accepting sink. -/
theorem C1_one_write_then_one_ack_witness :
    (writes (handler sampleExt state0 aliceMsg).trace).length = 1 ∧
    acks (handler sampleExt state0 aliceMsg).trace = [aliceMsg.ID] ∧
    (handler sampleExt state0 aliceMsg).outcome = .returned ∧
    ∃ i j : Nat, i < j ∧
      (handler sampleExt state0 aliceMsg).trace[i]? =
        some (Effect.writePoint (NewPoint aliceEvent
          { Username := "alice", PublicMetrics := { FollowersCount := 42 } })) ∧
      (handler sampleExt state0 aliceMsg).trace[j]? = some (Effect.ack aliceMsg.ID) :=
  C1_one_write_then_one_ack sampleExt state0 aliceMsg ⟨3, 17⟩ aliceEvent
    { Username := "alice", PublicMetrics := { FollowersCount := 42 } } []
    sampleParse_alice sampleUnmarshal_alice rfl rfl

/-- C2: for a decoded event whose author list starts with `u0`, the one point
handed to the sink has measurement "tweets", tags id = the post identifier and
author = the username of `u0`, field followers_count = the follower count of
`u0`, and the creation timestamp of the event, unchanged. -/
theorem C2_point_contents {σ : Type} (ext : External σ) (st : State σ) (msg : Message)
    (md : MessageMetadata) (ev : SearchStreamResponse) (u0 : User) (rest : List User)
    (hid : ext.ParseMessageMetadata msg.ID = .ok md)
    (hdec : ext.Unmarshal msg.Data = .ok (some ev))
    (husers : ev.Includes.Users = u0 :: rest) :
    writes (handler ext st msg).trace =
      [{ measurement := "tweets"
         tags := [("id", ev.Tweet.ID), ("author", u0.Username)]
         fields := [("followers_count", u0.PublicMetrics.FollowersCount)]
         ts := ev.Tweet.CreatedAt }] := by
  cases hw : (ext.WritePoint st.sink (NewPoint ev u0)).1 with
  | none =>
    rw [handler_write_ok ext st msg md ev u0 rest hid hdec husers hw]
    simp [decodePrefix, writes, NewPoint]
  | some err =>
    rw [handler_write_error ext st msg md ev u0 rest err hid hdec husers hw]
    simp [decodePrefix, writes, NewPoint]

/-- C2 at the end-to-end scenario: post 123 created 2024-01-01T00:00:00Z,
author alice with 42 followers. -/
theorem C2_point_contents_witness :
    writes (handler sampleExt state0 aliceMsg).trace =
      [{ measurement := "tweets"
         tags := [("id", "123"), ("author", "alice")]
         fields := [("followers_count", 42)]
         ts := newYear2024 }] :=
  C2_point_contents sampleExt state0 aliceMsg ⟨3, 17⟩ aliceEvent
    { Username := "alice", PublicMetrics := { FollowersCount := 42 } } []
    sampleParse_alice sampleUnmarshal_alice rfl

/-! ## The receive loop -/

theorem Receive_cons_exited {σ : Type} (ext : External σ) (st : State σ) (msg : Message)
    (later : List Message) (code : Nat) (h : (handler ext st msg).outcome = .exited code) :
    Receive ext st (msg :: later) = handler ext st msg := by
  simp only [Receive, h]
  rw [← h]

theorem Receive_cons_crashed {σ : Type} (ext : External σ) (st : State σ) (msg : Message)
    (later : List Message) (why : String) (h : (handler ext st msg).outcome = .crashed why) :
    Receive ext st (msg :: later) = handler ext st msg := by
  simp only [Receive, h]
  rw [← h]

theorem Receive_cons_returned {σ : Type} (ext : External σ) (st : State σ) (msg : Message)
    (later : List Message) (h : (handler ext st msg).outcome = .returned) :
    Receive ext st (msg :: later) =
      ⟨(Receive ext (handler ext st msg).state later).state,
       (handler ext st msg).trace ++ (Receive ext (handler ext st msg).state later).trace,
       (Receive ext (handler ext st msg).state later).outcome⟩ := by
  simp only [Receive, h]

/-- C3: when the sink rejects the point, the handler writes that point once,
never acknowledges, and ends the process with status 1; the receive loop ends
with it, whatever messages were still to come, so the write is not retried. -/
theorem C3_write_error_no_ack {σ : Type} (ext : External σ) (st : State σ) (msg : Message)
    (md : MessageMetadata) (ev : SearchStreamResponse) (u0 : User) (rest : List User)
    (err : String)
    (hid : ext.ParseMessageMetadata msg.ID = .ok md)
    (hdec : ext.Unmarshal msg.Data = .ok (some ev))
    (husers : ev.Includes.Users = u0 :: rest)
    (hw : (ext.WritePoint st.sink (NewPoint ev u0)).1 = some err) :
    acks (handler ext st msg).trace = [] ∧
    writes (handler ext st msg).trace = [NewPoint ev u0] ∧
    (handler ext st msg).outcome = .exited 1 ∧
    ∀ later : List Message,
      acks (Receive ext st (msg :: later)).trace = [] ∧
      writes (Receive ext st (msg :: later)).trace = [NewPoint ev u0] ∧
      (Receive ext st (msg :: later)).outcome = .exited 1 := by
  have hh := handler_write_error ext st msg md ev u0 rest err hid hdec husers hw
  have ho : (handler ext st msg).outcome = .exited 1 := by rw [hh]
  have ha : acks (handler ext st msg).trace = [] := by
    rw [hh]; simp [decodePrefix, acks]
  have hwr : writes (handler ext st msg).trace = [NewPoint ev u0] := by
    rw [hh]; simp [decodePrefix, writes]
  refine ⟨ha, hwr, ho, fun later => ?_⟩
  rw [Receive_cons_exited ext st msg later 1 ho]
  exact ⟨ha, hwr, ho⟩

/-- C3 at the alice message over a sink that rejects every point, with a
second delivery waiting. -/
theorem C3_write_error_no_ack_witness :
    acks (handler failingSinkExt state0 aliceMsg).trace = [] ∧
    writes (handler failingSinkExt state0 aliceMsg).trace =
      [NewPoint aliceEvent { Username := "alice", PublicMetrics := { FollowersCount := 42 } }] ∧
    (handler failingSinkExt state0 aliceMsg).outcome = .exited 1 ∧
    ∀ later : List Message,
      acks (Receive failingSinkExt state0 (aliceMsg :: later)).trace = [] ∧
      writes (Receive failingSinkExt state0 (aliceMsg :: later)).trace =
        [NewPoint aliceEvent
          { Username := "alice", PublicMetrics := { FollowersCount := 42 } }] ∧
      (Receive failingSinkExt state0 (aliceMsg :: later)).outcome = .exited 1 :=
  C3_write_error_no_ack failingSinkExt state0 aliceMsg ⟨3, 17⟩ aliceEvent
    { Username := "alice", PublicMetrics := { FollowersCount := 42 } } [] "unavailable"
    failingParse_alice failingUnmarshal_alice rfl rfl

/-- C4: on a body that decodes, without error, to an event with an empty
author list, the handler reports no decode error: it indexes the empty list and
the process ends on the run-time error "index out of range", after no write
and no acknowledgment. -/
theorem C4_empty_author_list_is_indexed {σ : Type} (ext : External σ) (st : State σ)
    (msg : Message) (md : MessageMetadata) (ev : SearchStreamResponse)
    (hid : ext.ParseMessageMetadata msg.ID = .ok md)
    (hdec : ext.Unmarshal msg.Data = .ok (some ev))
    (husers : ev.Includes.Users = []) :
    (handler ext st msg).outcome = .crashed "index out of range [0] with length 0" ∧
    fatals (handler ext st msg).trace = [] ∧
    writes (handler ext st msg).trace = [] ∧
    acks (handler ext st msg).trace = [] := by
  rw [handler_no_author ext st msg md ev hid hdec husers]
  simp [decodePrefix, fatals, writes, acks]

/-- C4 at the payload whose `includes.users` is the empty list. -/
theorem C4_empty_author_list_is_indexed_witness :
    sampleExt.Unmarshal emptyUsersPayload = .ok (some emptyUsersEvent) ∧
    emptyUsersEvent.Includes.Users = [] ∧
    (handler sampleExt state0 ⟨"0:0", emptyUsersPayload⟩).outcome =
      .crashed "index out of range [0] with length 0" ∧
    fatals (handler sampleExt state0 ⟨"0:0", emptyUsersPayload⟩).trace = [] ∧
    writes (handler sampleExt state0 ⟨"0:0", emptyUsersPayload⟩).trace = [] ∧
    acks (handler sampleExt state0 ⟨"0:0", emptyUsersPayload⟩).trace = [] :=
  ⟨sampleUnmarshal_emptyUsers, rfl,
    C4_empty_author_list_is_indexed sampleExt state0 ⟨"0:0", emptyUsersPayload⟩ ⟨0, 0⟩
      emptyUsersEvent (by simp [sampleExt, sampleParse]) sampleUnmarshal_emptyUsers rfl⟩

/-- C5: when the decoder returns an error, the handler makes no write and no
acknowledgment and ends the process with status 1 through the fatal log
"Failed to unmarshal"; the receive loop ends with it, so the messages still to
come are not handled. -/
theorem C5_decode_error_fatal {σ : Type} (ext : External σ) (st : State σ) (msg : Message)
    (md : MessageMetadata) (err : String)
    (hid : ext.ParseMessageMetadata msg.ID = .ok md)
    (hdec : ext.Unmarshal msg.Data = .error err) :
    writes (handler ext st msg).trace = [] ∧
    acks (handler ext st msg).trace = [] ∧
    fatals (handler ext st msg).trace =
      [("Failed to unmarshal %q: %v", [.str msg.ID, .str err])] ∧
    (handler ext st msg).outcome = .exited 1 ∧
    ∀ later : List Message, Receive ext st (msg :: later) = handler ext st msg := by
  have hh := handler_decode_error ext st msg md err hid hdec
  have ho : (handler ext st msg).outcome = .exited 1 := by rw [hh]
  refine ⟨?_, ?_, ?_, ho, fun later => Receive_cons_exited ext st msg later 1 ho⟩ <;>
    (rw [hh]; simp [decodePrefix, writes, acks, fatals])

/-- C5 at a body that is not JSON. -/
theorem C5_decode_error_fatal_witness :
    writes (handler sampleExt state0 ⟨"0:0", "not json"⟩).trace = [] ∧
    acks (handler sampleExt state0 ⟨"0:0", "not json"⟩).trace = [] ∧
    fatals (handler sampleExt state0 ⟨"0:0", "not json"⟩).trace =
      [("Failed to unmarshal %q: %v", [.str "0:0", .str "invalid character"])] ∧
    (handler sampleExt state0 ⟨"0:0", "not json"⟩).outcome = .exited 1 ∧
    ∀ later : List Message,
      Receive sampleExt state0 (⟨"0:0", "not json"⟩ :: later) =
        handler sampleExt state0 ⟨"0:0", "not json"⟩ :=
  C5_decode_error_fatal sampleExt state0 ⟨"0:0", "not json"⟩ ⟨0, 0⟩ "invalid character"
    (by simp [sampleExt, sampleParse]) sampleUnmarshal_garbage

/-- C9: when the identifier does not parse, the handler ends the process with
status 1 through the fatal log "Failed to parse", without calling the decoder,
without a write and without an acknowledgment; the receive loop ends with
it. -/
theorem C9_metadata_error_fatal {σ : Type} (ext : External σ) (st : State σ) (msg : Message)
    (err : String)
    (hid : ext.ParseMessageMetadata msg.ID = .error err) :
    decodes (handler ext st msg).trace = [] ∧
    writes (handler ext st msg).trace = [] ∧
    acks (handler ext st msg).trace = [] ∧
    fatals (handler ext st msg).trace =
      [("Failed to parse %q: %v", [.str msg.ID, .str err])] ∧
    (handler ext st msg).outcome = .exited 1 ∧
    ∀ later : List Message, Receive ext st (msg :: later) = handler ext st msg := by
  have hh := handler_parse_error ext st msg err hid
  have ho : (handler ext st msg).outcome = .exited 1 := by rw [hh]
  refine ⟨?_, ?_, ?_, ?_, ho, fun later => Receive_cons_exited ext st msg later 1 ho⟩ <;>
    (rw [hh]; simp [decodes, writes, acks, fatals])

/-- C9 at an identifier without partition and offset. -/
theorem C9_metadata_error_fatal_witness :
    decodes (handler sampleExt state0 ⟨"no-colon", alicePayload⟩).trace = [] ∧
    writes (handler sampleExt state0 ⟨"no-colon", alicePayload⟩).trace = [] ∧
    acks (handler sampleExt state0 ⟨"no-colon", alicePayload⟩).trace = [] ∧
    fatals (handler sampleExt state0 ⟨"no-colon", alicePayload⟩).trace =
      [("Failed to parse %q: %v",
        [.str "no-colon", .str "invalid encoded message metadata"])] ∧
    (handler sampleExt state0 ⟨"no-colon", alicePayload⟩).outcome = .exited 1 ∧
    ∀ later : List Message,
      Receive sampleExt state0 (⟨"no-colon", alicePayload⟩ :: later) =
        handler sampleExt state0 ⟨"no-colon", alicePayload⟩ :=
  C9_metadata_error_fatal sampleExt state0 ⟨"no-colon", alicePayload⟩
    "invalid encoded message metadata" sampleParse_garbage

/-! ## The delivery counter -/

theorem wrapInt32_add_wrapInt32 (a b : Int) :
    wrapInt32 (wrapInt32 a + b) = wrapInt32 (a + b) := by
  unfold wrapInt32
  omega

theorem wrapInt32_of_small (n : Int) (h0 : -2147483648 ≤ n) (h1 : n < 2147483648) :
    wrapInt32 n = n := by
  unfold wrapInt32
  omega

theorem increments_append (a b : List Effect) :
    increments (a ++ b) = increments a + increments b := by
  induction a with
  | nil => simp [increments]
  | cons e t ih =>
    cases e <;> simp [increments, ih]
    omega

theorem handler_receiveCount {σ : Type} (ext : External σ) (st : State σ) (msg : Message) :
    (handler ext st msg).state.receiveCount = wrapInt32 (st.receiveCount + 1) := by
  unfold handler
  dsimp only
  repeat' split
  all_goals rfl

theorem handler_trace_head {σ : Type} (ext : External σ) (st : State σ) (msg : Message) :
    (handler ext st msg).trace.head? = some Effect.addInt32 := by
  unfold handler
  dsimp only
  repeat' split
  all_goals rfl

theorem handler_increments {σ : Type} (ext : External σ) (st : State σ) (msg : Message) :
    increments (handler ext st msg).trace = 1 := by
  unfold handler
  dsimp only
  repeat' split
  all_goals rfl

theorem handler_printedCounts {σ : Type} (ext : External σ) (st : State σ) (msg : Message) :
    printedCounts (handler ext st msg).trace = [] := by
  unfold handler
  dsimp only
  repeat' split
  all_goals simp [printedCounts]

theorem handler_receiveCount_wrapped {σ : Type} (ext : External σ) (st : State σ)
    (msg : Message) :
    wrapInt32 (handler ext st msg).state.receiveCount = (handler ext st msg).state.receiveCount := by
  rw [handler_receiveCount]
  have h := wrapInt32_add_wrapInt32 (st.receiveCount + 1) 0
  simpa using h

theorem Receive_receiveCount {σ : Type} (ext : External σ) (msgs : List Message) :
    ∀ st : State σ, wrapInt32 st.receiveCount = st.receiveCount →
      (Receive ext st msgs).state.receiveCount =
        wrapInt32 (st.receiveCount + invocations ext st msgs) := by
  induction msgs with
  | nil =>
    intro st hst
    simp [Receive, invocations, hst]
  | cons msg later ih =>
    intro st hst
    cases ho : (handler ext st msg).outcome with
    | returned =>
      rw [Receive_cons_returned ext st msg later ho]
      simp only [invocations, ho]
      rw [ih _ (handler_receiveCount_wrapped ext st msg), handler_receiveCount,
        wrapInt32_add_wrapInt32]
      congr 1
      push_cast
      omega
    | exited code =>
      rw [Receive_cons_exited ext st msg later code ho]
      simp only [invocations, ho]
      rw [handler_receiveCount]
      rfl
    | crashed why =>
      rw [Receive_cons_crashed ext st msg later why ho]
      simp only [invocations, ho]
      rw [handler_receiveCount]
      rfl

theorem Receive_increments {σ : Type} (ext : External σ) (msgs : List Message) :
    ∀ st : State σ, increments (Receive ext st msgs).trace = invocations ext st msgs := by
  induction msgs with
  | nil =>
    intro st
    simp [Receive, invocations, increments]
  | cons msg later ih =>
    intro st
    cases ho : (handler ext st msg).outcome with
    | returned =>
      rw [Receive_cons_returned ext st msg later ho]
      simp only [invocations, ho]
      rw [increments_append, ih, handler_increments]
      omega
    | exited code =>
      rw [Receive_cons_exited ext st msg later code ho]
      simp only [invocations, ho]
      exact handler_increments ext st msg
    | crashed why =>
      rw [Receive_cons_crashed ext st msg later why ho]
      simp only [invocations, ho]
      exact handler_increments ext st msg

theorem invocations_of_returned {σ : Type} (ext : External σ) (msgs : List Message) :
    ∀ st : State σ, (Receive ext st msgs).outcome = .returned →
      invocations ext st msgs = msgs.length := by
  induction msgs with
  | nil =>
    intro st _
    simp [invocations]
  | cons msg later ih =>
    intro st h
    cases ho : (handler ext st msg).outcome with
    | returned =>
      rw [Receive_cons_returned ext st msg later ho] at h
      simp only [invocations, ho, List.length_cons]
      rw [ih _ h]
    | exited code =>
      rw [Receive_cons_exited ext st msg later code ho, ho] at h
      cases h
    | crashed why =>
      rw [Receive_cons_crashed ext st msg later why ho, ho] at h
      cases h

theorem printedCounts_append (a b : List Effect) :
    printedCounts (a ++ b) = printedCounts a ++ printedCounts b := by
  induction a with
  | nil => simp [printedCounts]
  | cons e t ih =>
    cases e <;> simp [printedCounts, ih]
    split
    · simp
    · simp

theorem Receive_printedCounts {σ : Type} (ext : External σ) (msgs : List Message) :
    ∀ st : State σ, printedCounts (Receive ext st msgs).trace = [] := by
  induction msgs with
  | nil =>
    intro st
    simp [Receive, printedCounts]
  | cons msg later ih =>
    intro st
    cases ho : (handler ext st msg).outcome with
    | returned =>
      rw [Receive_cons_returned ext st msg later ho]
      simp only [printedCounts_append, ih, handler_printedCounts, List.append_nil]
    | exited code =>
      rw [Receive_cons_exited ext st msg later code ho]
      exact handler_printedCounts ext st msg
    | crashed why =>
      rw [Receive_cons_crashed ext st msg later why ho]
      exact handler_printedCounts ext st msg

/-! ## The function `main` -/

theorem main_of_present {σ : Type} (env : String → Option String) (ext : External σ)
    (src : Source) (sink0 : σ)
    (projectID zone subscriptionID influxToken influxOrg influxBucket : String)
    (h1 : env "GOOGLE_PROJECT_ID" = some projectID)
    (h2 : env "PUBSUB_ZONE" = some zone)
    (h3 : env "PUBSUB_SUBSCRIPTION_ID" = some subscriptionID)
    (h4 : env "INFLUX_TOKEN" = some influxToken)
    (h5 : env "INFLUX_ORG" = some influxOrg)
    (h6 : env "INFLUX_BUCKET" = some influxBucket) :
    main env ext src sink0 =
      ⟨(mainBody projectID zone subscriptionID influxToken influxOrg influxBucket
          ext src sink0).state,
       envLookups ++ (mainBody projectID zone subscriptionID influxToken influxOrg influxBucket
          ext src sink0).trace,
       (mainBody projectID zone subscriptionID influxToken influxOrg influxBucket
          ext src sink0).outcome⟩ := by
  simp only [main, h1, h2, h3, h4, h5, h6, envLookups]
  rfl

theorem mainBody_graceful {σ : Type}
    (projectID zone subscriptionID influxToken influxOrg influxBucket : String)
    (ext : External σ) (src : Source) (sink0 : σ)
    (hnew : ext.NewSubscriberClientWithSettings
      ("projects/" ++ projectID ++ "/locations/" ++ zone ++ "/subscriptions/" ++
        subscriptionID) = none)
    (hloop : (Receive ext ⟨0, sink0⟩ src.deliveries).outcome = .returned)
    (herr : src.receiveErr = none) :
    mainBody projectID zone subscriptionID influxToken influxOrg influxBucket ext src sink0 =
      ⟨(Receive ext ⟨0, sink0⟩ src.deliveries).state,
       startupCalls projectID zone subscriptionID influxToken influxOrg influxBucket ++
         (Receive ext ⟨0, sink0⟩ src.deliveries).trace ++
         [Effect.printf "Received %d messages\n"
            [.int (Receive ext ⟨0, sink0⟩ src.deliveries).state.receiveCount],
          Effect.cancel, Effect.clientClose],
       .returned⟩ := by
  simp only [mainBody, hnew, hloop, herr, startupCalls]
  rfl

theorem mainBody_receive_error {σ : Type}
    (projectID zone subscriptionID influxToken influxOrg influxBucket : String)
    (ext : External σ) (src : Source) (sink0 : σ) (err : String)
    (hnew : ext.NewSubscriberClientWithSettings
      ("projects/" ++ projectID ++ "/locations/" ++ zone ++ "/subscriptions/" ++
        subscriptionID) = none)
    (hloop : (Receive ext ⟨0, sink0⟩ src.deliveries).outcome = .returned)
    (herr : src.receiveErr = some err) :
    mainBody projectID zone subscriptionID influxToken influxOrg influxBucket ext src sink0 =
      ⟨(Receive ext ⟨0, sink0⟩ src.deliveries).state,
       startupCalls projectID zone subscriptionID influxToken influxOrg influxBucket ++
         (Receive ext ⟨0, sink0⟩ src.deliveries).trace ++
         [Effect.fatalf "SubscriberClient.Receive error: %v" [.str err]],
       .exited 1⟩ := by
  simp only [mainBody, hnew, hloop, herr, startupCalls]
  rfl

theorem startupCalls_printedCounts
    (projectID zone subscriptionID influxToken influxOrg influxBucket : String) :
    printedCounts
      (startupCalls projectID zone subscriptionID influxToken influxOrg influxBucket) = [] := by
  simp [startupCalls, printedCounts]

theorem main_graceful_printedCounts {σ : Type} (env : String → Option String)
    (ext : External σ) (src : Source) (sink0 : σ)
    (projectID zone subscriptionID influxToken influxOrg influxBucket : String)
    (h1 : env "GOOGLE_PROJECT_ID" = some projectID)
    (h2 : env "PUBSUB_ZONE" = some zone)
    (h3 : env "PUBSUB_SUBSCRIPTION_ID" = some subscriptionID)
    (h4 : env "INFLUX_TOKEN" = some influxToken)
    (h5 : env "INFLUX_ORG" = some influxOrg)
    (h6 : env "INFLUX_BUCKET" = some influxBucket)
    (hnew : ext.NewSubscriberClientWithSettings
      ("projects/" ++ projectID ++ "/locations/" ++ zone ++ "/subscriptions/" ++
        subscriptionID) = none)
    (hloop : (Receive ext ⟨0, sink0⟩ src.deliveries).outcome = .returned)
    (herr : src.receiveErr = none) :
    printedCounts (main env ext src sink0).trace =
      [[Arg.int (wrapInt32 (src.deliveries.length : Int))]] ∧
    (main env ext src sink0).outcome = .returned := by
  rw [main_of_present env ext src sink0 projectID zone subscriptionID influxToken influxOrg
    influxBucket h1 h2 h3 h4 h5 h6,
    mainBody_graceful projectID zone subscriptionID influxToken influxOrg influxBucket ext src
      sink0 hnew hloop herr]
  refine ⟨?_, rfl⟩
  have hc := Receive_receiveCount ext src.deliveries ⟨0, sink0⟩ rfl
  rw [invocations_of_returned ext src.deliveries ⟨0, sink0⟩ hloop] at hc
  simp only [printedCounts_append, startupCalls_printedCounts, Receive_printedCounts, hc]
  simp [envLookups, printedCounts]

theorem main_receive_error_printedCounts {σ : Type} (env : String → Option String)
    (ext : External σ) (src : Source) (sink0 : σ)
    (projectID zone subscriptionID influxToken influxOrg influxBucket : String) (err : String)
    (h1 : env "GOOGLE_PROJECT_ID" = some projectID)
    (h2 : env "PUBSUB_ZONE" = some zone)
    (h3 : env "PUBSUB_SUBSCRIPTION_ID" = some subscriptionID)
    (h4 : env "INFLUX_TOKEN" = some influxToken)
    (h5 : env "INFLUX_ORG" = some influxOrg)
    (h6 : env "INFLUX_BUCKET" = some influxBucket)
    (hnew : ext.NewSubscriberClientWithSettings
      ("projects/" ++ projectID ++ "/locations/" ++ zone ++ "/subscriptions/" ++
        subscriptionID) = none)
    (hloop : (Receive ext ⟨0, sink0⟩ src.deliveries).outcome = .returned)
    (herr : src.receiveErr = some err) :
    printedCounts (main env ext src sink0).trace = [] ∧
    (main env ext src sink0).outcome = .exited 1 := by
  rw [main_of_present env ext src sink0 projectID zone subscriptionID influxToken influxOrg
    influxBucket h1 h2 h3 h4 h5 h6,
    mainBody_receive_error projectID zone subscriptionID influxToken influxOrg influxBucket ext
      src sink0 err hnew hloop herr]
  refine ⟨?_, rfl⟩
  simp only [printedCounts_append, startupCalls_printedCounts, Receive_printedCounts]
  simp [envLookups, printedCounts]

theorem wrapInt32_zero : wrapInt32 0 = 0 := by
  unfold wrapInt32
  omega

theorem main_of_absent {σ : Type} (env : String → Option String) (ext : External σ)
    (src : Source) (sink0 : σ) (h : allPresent env = false) :
    (main env ext src sink0).outcome = .exited 1 ∧
    (main env ext src sink0).state.receiveCount = 0 ∧
    subscriberCreations (main env ext src sink0).trace = [] ∧
    sinkCreations (main env ext src sink0).trace = [] ∧
    increments (main env ext src sink0).trace = 0 ∧
    writes (main env ext src sink0).trace = [] ∧
    acks (main env ext src sink0).trace = [] ∧
    (fatals (main env ext src sink0).trace).length = 1 := by
  cases h1 : env "GOOGLE_PROJECT_ID" with
  | none => simp [main, h1, subscriberCreations, sinkCreations, increments, writes, acks, fatals]
  | some projectID =>
  cases h2 : env "PUBSUB_ZONE" with
  | none =>
    simp [main, h1, h2, subscriberCreations, sinkCreations, increments, writes, acks, fatals]
  | some zone =>
  cases h3 : env "PUBSUB_SUBSCRIPTION_ID" with
  | none =>
    simp [main, h1, h2, h3, subscriberCreations, sinkCreations, increments, writes, acks, fatals]
  | some subscriptionID =>
  cases h4 : env "INFLUX_TOKEN" with
  | none =>
    simp [main, h1, h2, h3, h4, subscriberCreations, sinkCreations, increments, writes, acks,
      fatals]
  | some influxToken =>
  cases h5 : env "INFLUX_ORG" with
  | none =>
    simp [main, h1, h2, h3, h4, h5, subscriberCreations, sinkCreations, increments, writes,
      acks, fatals]
  | some influxOrg =>
  cases h6 : env "INFLUX_BUCKET" with
  | none =>
    simp [main, h1, h2, h3, h4, h5, h6, subscriberCreations, sinkCreations, increments, writes,
      acks, fatals]
  | some influxBucket =>
    simp [allPresent, h1, h2, h3, h4, h5, h6] at h

theorem allPresent_values (env : String → Option String) (h : allPresent env = true) :
    ∃ projectID zone subscriptionID influxToken influxOrg influxBucket : String,
      env "GOOGLE_PROJECT_ID" = some projectID ∧ env "PUBSUB_ZONE" = some zone ∧
      env "PUBSUB_SUBSCRIPTION_ID" = some subscriptionID ∧
      env "INFLUX_TOKEN" = some influxToken ∧ env "INFLUX_ORG" = some influxOrg ∧
      env "INFLUX_BUCKET" = some influxBucket := by
  simp only [allPresent, Bool.and_eq_true, Option.isSome_iff_exists] at h
  obtain ⟨⟨⟨⟨⟨⟨a, ha⟩, ⟨b, hb⟩⟩, ⟨c, hc⟩⟩, ⟨d, hd⟩⟩, ⟨e, he⟩⟩, ⟨f, hf⟩⟩ := h
  exact ⟨a, b, c, d, e, f, ha, hb, hc, hd, he, hf⟩

theorem mainBody_subscriberCreations {σ : Type}
    (projectID zone subscriptionID influxToken influxOrg influxBucket : String)
    (ext : External σ) (src : Source) (sink0 : σ) :
    ∃ later : List Effect,
      (mainBody projectID zone subscriptionID influxToken influxOrg influxBucket
        ext src sink0).trace =
      Effect.newSubscriberClient
        ("projects/" ++ projectID ++ "/locations/" ++ zone ++ "/subscriptions/" ++
          subscriptionID) (10 * 1024 * 1024) 1000 :: later := by
  unfold mainBody
  dsimp only
  repeat' split
  all_goals exact ⟨_, rfl⟩

theorem subscriberCreations_append (a b : List Effect) :
    subscriberCreations (a ++ b) = subscriberCreations a ++ subscriberCreations b := by
  induction a with
  | nil => simp [subscriberCreations]
  | cons e t ih => cases e <;> simp [subscriberCreations, ih]

theorem mainBody_receiveCount {σ : Type}
    (projectID zone subscriptionID influxToken influxOrg influxBucket : String)
    (ext : External σ) (src : Source) (sink0 : σ) :
    (mainBody projectID zone subscriptionID influxToken influxOrg influxBucket
      ext src sink0).state.receiveCount =
    wrapInt32 (increments (mainBody projectID zone subscriptionID influxToken influxOrg
      influxBucket ext src sink0).trace) := by
  have hc := Receive_receiveCount ext src.deliveries ⟨0, sink0⟩ rfl
  have hi := Receive_increments ext src.deliveries ⟨0, sink0⟩
  simp only [Int.zero_add] at hc
  unfold mainBody
  dsimp only
  repeat' split
  all_goals
    simp only [increments_append, hi, hc]
    simp [increments, wrapInt32_zero]

theorem handler_alice_returned (st : State Nat) :
    (handler sampleExt st aliceMsg).outcome = .returned := by
  rw [handler_write_ok sampleExt st aliceMsg ⟨3, 17⟩ aliceEvent
    { Username := "alice", PublicMetrics := { FollowersCount := 42 } } []
    sampleParse_alice sampleUnmarshal_alice rfl rfl]

theorem Receive_alice_returned (n : Nat) :
    ∀ st : State Nat, (Receive sampleExt st (List.replicate n aliceMsg)).outcome = .returned := by
  induction n with
  | zero =>
    intro st
    rfl
  | succ k ih =>
    intro st
    rw [List.replicate_succ,
      Receive_cons_returned sampleExt st aliceMsg _ (handler_alice_returned st)]
    exact ih _

/-! ## The claims on the counter, on startup and on shutdown -/

/-- C6: every handler invocation makes `atomic.AddInt32` its first effect,
makes it once, and leaves the counter one higher (as an `int32`), whatever the
outcome; starting from 0, the receive loop leaves the counter at the number of
invocations begun, wrapped to 32 bits (and at that very number below 2^31);
and at the end of `main` the counter stands at the number of `atomic.AddInt32`
calls of the whole trace, so nothing else changes it. -/
theorem C6_delivery_counter {σ : Type} (ext : External σ) :
    (∀ (st : State σ) (msg : Message),
      (handler ext st msg).trace.head? = some Effect.addInt32 ∧
      increments (handler ext st msg).trace = 1 ∧
      (handler ext st msg).state.receiveCount = wrapInt32 (st.receiveCount + 1)) ∧
    (∀ (sink0 : σ) (msgs : List Message),
      (Receive ext ⟨0, sink0⟩ msgs).state.receiveCount =
        wrapInt32 (invocations ext ⟨0, sink0⟩ msgs) ∧
      increments (Receive ext ⟨0, sink0⟩ msgs).trace = invocations ext ⟨0, sink0⟩ msgs ∧
      (invocations ext ⟨0, sink0⟩ msgs < 2147483648 →
        (Receive ext ⟨0, sink0⟩ msgs).state.receiveCount = invocations ext ⟨0, sink0⟩ msgs)) ∧
    (∀ (env : String → Option String) (src : Source) (sink0 : σ),
      (main env ext src sink0).state.receiveCount =
        wrapInt32 (increments (main env ext src sink0).trace)) := by
  refine ⟨fun st msg => ⟨handler_trace_head ext st msg, handler_increments ext st msg,
    handler_receiveCount ext st msg⟩, fun sink0 msgs => ?_, fun env src sink0 => ?_⟩
  · have hc := Receive_receiveCount ext msgs ⟨0, sink0⟩ rfl
    simp only [Int.zero_add] at hc
    refine ⟨hc, Receive_increments ext msgs ⟨0, sink0⟩, fun hlt => ?_⟩
    rw [hc]
    apply wrapInt32_of_small <;> omega
  · cases hp : allPresent env with
    | false =>
      obtain ⟨_, hc, _, _, hi, _⟩ := main_of_absent env ext src sink0 hp
      rw [hc, hi]
      exact wrapInt32_zero.symm
    | true =>
      obtain ⟨a, b, c, d, e, f, h1, h2, h3, h4, h5, h6⟩ := allPresent_values env hp
      rw [main_of_present env ext src sink0 a b c d e f h1 h2 h3 h4 h5 h6]
      have hb := mainBody_receiveCount a b c d e f ext src sink0
      simp only [increments_append]
      rw [hb]
      simp [envLookups, increments]

/-- C6 on a run of three deliveries, the last of which fails to decode: three
invocations begin and the counter stands at 3. -/
theorem C6_delivery_counter_witness :
    invocations sampleExt ⟨0, 0⟩ [aliceMsg, aliceMsg, ⟨"0:0", "not json"⟩, aliceMsg] = 3 ∧
    (Receive sampleExt ⟨0, 0⟩
      [aliceMsg, aliceMsg, ⟨"0:0", "not json"⟩, aliceMsg]).state.receiveCount = 3 := by
  have hinv :
      invocations sampleExt ⟨0, 0⟩ [aliceMsg, aliceMsg, ⟨"0:0", "not json"⟩, aliceMsg] = 3 := by
    have hbad : ∀ st : State Nat,
        (handler sampleExt st ⟨"0:0", "not json"⟩).outcome = .exited 1 := by
      intro st
      rw [handler_decode_error sampleExt st ⟨"0:0", "not json"⟩ ⟨0, 0⟩ "invalid character"
        (by simp [sampleExt, sampleParse]) sampleUnmarshal_garbage]
    simp only [invocations, handler_alice_returned, hbad]
  refine ⟨hinv, ?_⟩
  have h := ((C6_delivery_counter sampleExt).2.1 0
    [aliceMsg, aliceMsg, ⟨"0:0", "not json"⟩, aliceMsg]).2.2
  rw [hinv] at h
  exact h (by decide)

/-- C8: `main` calls `pscompat.NewSubscriberClientWithSettings` if and only if
all six settings are present in the environment; when one is absent the
process ends with status 1 through one fatal log, with no subscriber client
and no sink client created, no handler invocation, no write and no
acknowledgment. -/
theorem C8_settings_required {σ : Type} (env : String → Option String) (ext : External σ)
    (src : Source) (sink0 : σ) :
    (subscriberCreations (main env ext src sink0).trace ≠ [] ↔ allPresent env = true) ∧
    (allPresent env = false →
      (main env ext src sink0).outcome = .exited 1 ∧
      subscriberCreations (main env ext src sink0).trace = [] ∧
      sinkCreations (main env ext src sink0).trace = [] ∧
      increments (main env ext src sink0).trace = 0 ∧
      writes (main env ext src sink0).trace = [] ∧
      acks (main env ext src sink0).trace = [] ∧
      (fatals (main env ext src sink0).trace).length = 1) := by
  constructor
  · cases hp : allPresent env with
    | false =>
      obtain ⟨_, _, hs, _⟩ := main_of_absent env ext src sink0 hp
      simp [hs]
    | true =>
      obtain ⟨a, b, c, d, e, f, h1, h2, h3, h4, h5, h6⟩ := allPresent_values env hp
      obtain ⟨later, hl⟩ := mainBody_subscriberCreations a b c d e f ext src sink0
      rw [main_of_present env ext src sink0 a b c d e f h1 h2 h3 h4 h5 h6]
      simp [subscriberCreations_append, hl, subscriberCreations]
  · intro hp
    obtain ⟨ho, _, hs, hk, hi, hw, ha, hf⟩ := main_of_absent env ext src sink0 hp
    exact ⟨ho, hs, hk, hi, hw, ha, hf⟩

/-- C8 at an environment without `INFLUX_BUCKET`, and at one with all six
settings. -/
theorem C8_settings_required_witness :
    allPresent noBucketEnv = false ∧
    (main noBucketEnv sampleExt ⟨[aliceMsg], none⟩ 0).outcome = .exited 1 ∧
    subscriberCreations (main noBucketEnv sampleExt ⟨[aliceMsg], none⟩ 0).trace = [] ∧
    sinkCreations (main noBucketEnv sampleExt ⟨[aliceMsg], none⟩ 0).trace = [] ∧
    allPresent fullEnv = true ∧
    subscriberCreations (main fullEnv sampleExt ⟨[aliceMsg], none⟩ 0).trace ≠ [] := by
  have hno : allPresent noBucketEnv = false := by decide
  have hfull : allPresent fullEnv = true := by decide
  have h := (C8_settings_required noBucketEnv sampleExt ⟨[aliceMsg], none⟩ 0).2 hno
  exact ⟨hno, h.1, h.2.1, h.2.2.1, hfull,
    (C8_settings_required fullEnv sampleExt ⟨[aliceMsg], none⟩ 0).1.2 hfull⟩

/-- C10: with all six settings present and the subscriber created, when
every handler invocation of the receive loop returns, all n deliveries were
begun; if the loop then returns without error, `main` prints the count of
received messages once and returns, so the exit status is zero, and the count
printed is n for every n below 2^31, the range of the `int32` counter (in
general it is n as an `int32`); if the loop returns an error, the process ends
with status 1 and no count is printed. -/
theorem C10_final_count {σ : Type} (env : String → Option String) (ext : External σ)
    (src : Source) (sink0 : σ)
    (projectID zone subscriptionID influxToken influxOrg influxBucket : String)
    (h1 : env "GOOGLE_PROJECT_ID" = some projectID)
    (h2 : env "PUBSUB_ZONE" = some zone)
    (h3 : env "PUBSUB_SUBSCRIPTION_ID" = some subscriptionID)
    (h4 : env "INFLUX_TOKEN" = some influxToken)
    (h5 : env "INFLUX_ORG" = some influxOrg)
    (h6 : env "INFLUX_BUCKET" = some influxBucket)
    (hnew : ext.NewSubscriberClientWithSettings
      ("projects/" ++ projectID ++ "/locations/" ++ zone ++ "/subscriptions/" ++
        subscriptionID) = none)
    (hloop : (Receive ext ⟨0, sink0⟩ src.deliveries).outcome = .returned) :
    invocations ext ⟨0, sink0⟩ src.deliveries = src.deliveries.length ∧
    (src.receiveErr = none →
      printedCounts (main env ext src sink0).trace =
        [[Arg.int (wrapInt32 (src.deliveries.length : Int))]] ∧
      (src.deliveries.length < 2147483648 →
        printedCounts (main env ext src sink0).trace =
          [[Arg.int (src.deliveries.length : Int)]]) ∧
      (main env ext src sink0).outcome.exitStatus = 0) ∧
    (∀ err : String, src.receiveErr = some err →
      printedCounts (main env ext src sink0).trace = [] ∧
      (main env ext src sink0).outcome = .exited 1) := by
  refine ⟨invocations_of_returned ext src.deliveries ⟨0, sink0⟩ hloop, fun herr => ?_,
    fun err herr => main_receive_error_printedCounts env ext src sink0 projectID zone
      subscriptionID influxToken influxOrg influxBucket err h1 h2 h3 h4 h5 h6 hnew hloop herr⟩
  obtain ⟨hp, ho⟩ := main_graceful_printedCounts env ext src sink0 projectID zone
    subscriptionID influxToken influxOrg influxBucket h1 h2 h3 h4 h5 h6 hnew hloop herr
  refine ⟨hp, fun hlt => ?_, by rw [ho]; rfl⟩
  rw [hp, wrapInt32_of_small _ (by omega) (by omega)]

/-- C10 on a run of two deliveries: when the loop ends without error the count
printed is 2 and the exit status is zero; when it ends with an error the
process exits with status 1 and prints no count. -/
theorem C10_final_count_witness :
    invocations sampleExt ⟨0, 0⟩ [aliceMsg, aliceMsg] = 2 ∧
    printedCounts (main fullEnv sampleExt ⟨[aliceMsg, aliceMsg], none⟩ 0).trace =
      [[Arg.int 2]] ∧
    (main fullEnv sampleExt ⟨[aliceMsg, aliceMsg], none⟩ 0).outcome.exitStatus = 0 ∧
    printedCounts
      (main fullEnv sampleExt ⟨[aliceMsg, aliceMsg], some "transport closed"⟩ 0).trace = [] ∧
    (main fullEnv sampleExt ⟨[aliceMsg, aliceMsg], some "transport closed"⟩ 0).outcome =
      .exited 1 := by
  have h := C10_final_count fullEnv sampleExt ⟨[aliceMsg, aliceMsg], none⟩ 0
    "proj" "us-central1-a" "tweets" "token" "org" "bucket"
    (by decide) (by decide) (by decide) (by decide) (by decide) (by decide) rfl
    (Receive_alice_returned 2 ⟨0, 0⟩)
  have herr := (C10_final_count fullEnv sampleExt
    ⟨[aliceMsg, aliceMsg], some "transport closed"⟩ 0
    "proj" "us-central1-a" "tweets" "token" "org" "bucket"
    (by decide) (by decide) (by decide) (by decide) (by decide) (by decide) rfl
    (Receive_alice_returned 2 ⟨0, 0⟩)).2.2 "transport closed" rfl
  exact ⟨h.1, (h.2.1 rfl).2.1 (by decide), (h.2.1 rfl).2.2, herr.1, herr.2⟩

end TweetsMetrics
